import Mathlib

/-!
Shallow embedding of the ERISA claims repository's import/export pipeline and
dashboard aggregation, translated from `claims/management/commands/import_claims.py`,
`claims/views.py` and `claims/models.py`.

Files are modelled as lists of lines (strings); pipe-splitting and dict-style row
access follow the source's `csv.reader` / `csv.DictReader` usage.  Python
exceptions relevant to the import loop are modelled explicitly: `ValueError`,
`KeyError` (both caught by the per-row handler) and `decimal.InvalidOperation`
(raised by `Decimal(...)` on malformed input and caught by nothing in the loop).
Decimal amounts are modelled exactly as a signed coefficient with a decimal
exponent (the shape of a Python `Decimal`), dates as a validated
year/month/day triple (the shape checked by `datetime.strptime('%Y-%m-%d')`).
-/

namespace Erisa

/-- The five internal status enum values, from `Claim.STATUS_CHOICES` in models.py. -/
inductive Status
  | pending
  | approved
  | denied
  | processing
  | review
deriving DecidableEq, Repr

/-- The stored lowercase token for a status (left column of `STATUS_CHOICES`). -/
def Status.code : Status → String
  | .pending => "pending"
  | .approved => "approved"
  | .denied => "denied"
  | .processing => "processing"
  | .review => "review"

/-- The human display label for a status (right column of `STATUS_CHOICES`). -/
def Status.display : Status → String
  | .pending => "Pending"
  | .approved => "Approved"
  | .denied => "Denied"
  | .processing => "Processing"
  | .review => "Under Review"

/-- `Claim.STATUS_CHOICES` from models.py: the list of (code, display) pairs, in
source order. -/
def STATUS_CHOICES : List (Status × String) :=
  [(.pending, "Pending"), (.approved, "Approved"), (.denied, "Denied"),
   (.processing, "Processing"), (.review, "Under Review")]

/-- Exact decimal number: value is `coeff / 10 ^ exp`.  This mirrors Python's
`Decimal` representation (integer coefficient plus decimal exponent), which is
what `DecimalField` round-trips through `str`. -/
structure Dec where
  coeff : Int
  exp : Nat
deriving DecidableEq, Repr

/-- Numeric value of a `Dec`, used for SQL-level aggregation (Sum/Avg). -/
def Dec.toRat (d : Dec) : ℚ := (d.coeff : ℚ) / ((10 : ℚ) ^ d.exp)

/-- Calendar date, the result of a successful `strptime('%Y-%m-%d')`. -/
structure Date where
  year : Nat
  month : Nat
  day : Nat
deriving DecidableEq, Repr

/-- Gregorian leap-year rule (as validated by `datetime`). -/
def isLeap (y : Nat) : Bool := y % 4 == 0 && (y % 100 != 0 || y % 400 == 0)

/-- Days in a month, as validated by `datetime`. -/
def daysInMonth (y m : Nat) : Nat :=
  if m == 2 then (if isLeap y then 29 else 28)
  else if m == 4 || m == 6 || m == 9 || m == 11 then 30
  else 31

/-- The four Python exception classes that matter to the import row loops:
`ValueError` and `KeyError` are the two the per-row handlers catch;
`decimal.InvalidOperation` (from `Decimal` on malformed text) and `TypeError`
(from `int`/`strptime`/`Decimal` on a `None` field value, which
`csv.DictReader` produces for the missing tail of a short data line) are
caught by nothing in the loops. -/
inductive PyError
  | valueError
  | keyError
  | invalidOperation
  | typeError
deriving DecidableEq, Repr

deriving instance DecidableEq for Except

/-- Digit characters check for a parsed fragment. -/
def allDigits (cs : List Char) : Bool := !cs.isEmpty && cs.all (·.isDigit)

/-- Decimal digits to a natural number. -/
def digitsToNat (cs : List Char) : Nat :=
  cs.foldl (fun n c => 10 * n + (c.toNat - 48)) 0

/-- Model of Python `int(raw)`: optional sign followed by one or more digits.
Failure is a `ValueError`. -/
def parseInt (raw : String) : Option Int :=
  match raw.toList with
  | '-' :: rest => if allDigits rest then some (-(digitsToNat rest : Int)) else none
  | '+' :: rest => if allDigits rest then some (digitsToNat rest : Int) else none
  | cs => if allDigits cs then some (digitsToNat cs : Int) else none

/-- Model of Python `Decimal(raw)` on the plain-number syntax used by the
exchange format: optional sign, integer digits, optional fraction digits, at
least one digit in total.  Failure is a `decimal.InvalidOperation`. -/
def parseDecimal (raw : String) : Option Dec :=
  let core : List Char → Option (Nat × Nat) := fun cs =>
    match (cs.splitOn '.') with
    | [intPart] =>
        if allDigits intPart then some (digitsToNat intPart, 0) else none
    | [intPart, fracPart] =>
        if (intPart.all (·.isDigit)) && (fracPart.all (·.isDigit)) &&
            !(intPart.isEmpty && fracPart.isEmpty) then
          some (digitsToNat (intPart ++ fracPart), fracPart.length)
        else none
    | _ => none
  match raw.toList with
  | '-' :: rest => (core rest).map (fun p => ⟨-(p.1 : Int), p.2⟩)
  | '+' :: rest => (core rest).map (fun p => ⟨(p.1 : Int), p.2⟩)
  | cs => (core cs).map (fun p => ⟨(p.1 : Int), p.2⟩)

/-- Split a string at every occurrence of a separator character (the behaviour
of `csv.reader` with a one-character delimiter and no quoting in the data). -/
def splitChar (sep : Char) (s : String) : List String :=
  ((s.toList).splitOn sep).map String.mk

/-- Model of `datetime.strptime(raw, '%Y-%m-%d').date()`: a dash-separated
triple of digit groups (year up to 4 digits, month/day up to 2), validated as a
real calendar date.  Failure is a `ValueError`. -/
def parseDate (raw : String) : Option Date :=
  match splitChar '-' raw with
  | [ys, ms, ds] =>
      let ycs := ys.toList
      let mcs := ms.toList
      let dcs := ds.toList
      if allDigits ycs && ycs.length ≤ 4 && allDigits mcs && mcs.length ≤ 2 &&
          allDigits dcs && dcs.length ≤ 2 then
        let y := digitsToNat ycs
        let m := digitsToNat mcs
        let d := digitsToNat dcs
        if 1 ≤ y && 1 ≤ m && m ≤ 12 && 1 ≤ d && d ≤ daysInMonth y m then
          some ⟨y, m, d⟩
        else none
      else none
  | _ => none

/-- A stored Claim row (models.Claim).  The created/updated timestamps and the
creator/updater references are outside the model: every claim the spec makes
about them excludes or abstracts them. -/
structure Claim where
  id : Int
  patient_name : String
  billed_amount : Dec
  paid_amount : Dec
  status : Status
  insurer_name : String
  discharge_date : Date
  is_flagged : Bool
deriving DecidableEq, Repr

/-- A stored ClaimDetail row (models.ClaimDetail).  `pk` is the auto-assigned
primary key; `claim_id` carries the one-to-one foreign key. -/
structure ClaimDetail where
  pk : Nat
  claim_id : Int
  cpt_codes : String
  denial_reason : Option String
deriving DecidableEq, Repr

/-- A `Claim` object as built by the row loop, before insertion.  The
`patient_name` and `insurer_name` fields come straight from the dict row, so
(unlike the typed fields, whose conversions raise on `None` first) they can
still hold Python `None` here. -/
structure PendingClaim where
  id : Int
  patient_name : Option String
  billed_amount : Dec
  paid_amount : Dec
  status : Status
  insurer_name : Option String
  discharge_date : Date
deriving DecidableEq, Repr

abbrev ClaimStore := List Claim
abbrev DetailStore := List ClaimDetail

/-- Ids present in the claim store. -/
def idsOf (S : ClaimStore) : List Int := S.map (·.id)

/-- A `csv.DictReader` row: association list from header name to the field's
Python value — `some` text, or `none` when a short data line left the column
to the reader's `restval` (None). -/
abbrev Row := List (String × Option String)

/-- `row[key]` on a Python dict: missing key raises `KeyError`; a present key
yields its (possibly None) value. -/
def rowGet (r : Row) (k : String) : Except PyError (Option String) :=
  match r.lookup k with
  | some v => .ok v
  | none => .error .keyError

/-- The `status_mapping` dict literal in `import_claims`. -/
def status_mapping : List (String × Status) :=
  [("Paid", .approved), ("Denied", .denied), ("Under Review", .review),
   ("Processing", .processing), ("Pending", .pending)]

/-- `status_mapping.get(row['status'], 'pending')`: total, defaults to pending. -/
def mapStatus (raw : String) : Status := (status_mapping.lookup raw).getD .pending

/-- The same dict `.get` applied to the row value: a `None` value is simply an
absent key and takes the default. -/
def mapStatusV : Option String → Status
  | none => .pending
  | some raw => mapStatus raw

/-- `int(...)` on a string, lifted into the loop's exception model. -/
def parseIntE (raw : String) : Except PyError Int :=
  match parseInt raw with
  | some i => .ok i
  | none => .error .valueError

/-- `int(value)` on a row value: `int(None)` raises `TypeError`. -/
def parseIntV : Option String → Except PyError Int
  | none => .error .typeError
  | some raw => parseIntE raw

/-- `Decimal(...)` on a string, lifted into the loop's exception model: note
the failure is `InvalidOperation`, not `ValueError`. -/
def parseDecimalE (raw : String) : Except PyError Dec :=
  match parseDecimal raw with
  | some d => .ok d
  | none => .error .invalidOperation

/-- `Decimal(value)` on a row value: `Decimal(None)` raises `TypeError`. -/
def parseDecimalV : Option String → Except PyError Dec
  | none => .error .typeError
  | some raw => parseDecimalE raw

/-- `strptime` on a string, lifted into the loop's exception model. -/
def parseDateE (raw : String) : Except PyError Date :=
  match parseDate raw with
  | some d => .ok d
  | none => .error .valueError

/-- `strptime(value, ...)` on a row value: `strptime(None, ...)` raises
`TypeError`. -/
def parseDateV : Option String → Except PyError Date
  | none => .error .typeError
  | some raw => parseDateE raw

/-- The body of the `for row in reader` loop of `import_claims`, up to the
construction of the `Claim` object, with field accesses and conversions in the
source's evaluation order. -/
def mapClaimRow (row : Row) : Except PyError PendingClaim := do
  let statusV ← rowGet row "status"
  let status := mapStatusV statusV
  let dateV ← rowGet row "discharge_date"
  let discharge_date ← parseDateV dateV
  let idV ← rowGet row "id"
  let cid ← parseIntV idV
  let patient_name ← rowGet row "patient_name"
  let billedV ← rowGet row "billed_amount"
  let billed_amount ← parseDecimalV billedV
  let paidV ← rowGet row "paid_amount"
  let paid_amount ← parseDecimalV paidV
  let insurer_name ← rowGet row "insurer_name"
  pure ⟨cid, patient_name, billed_amount, paid_amount, status, insurer_name,
        discharge_date⟩

/-- One row of `bulk_create(..., ignore_conflicts=True)` on SQLite
(`INSERT OR IGNORE`): a row whose id already exists is silently skipped, never
overwritten, and a row violating the NOT NULL constraint on `patient_name` or
`insurer_name` is likewise silently skipped (SQLite's IGNORE resolution covers
every such constraint, not only uniqueness). -/
def insertIgnore (S : ClaimStore) (p : PendingClaim) : ClaimStore :=
  if p.id ∈ idsOf S then S
  else
    match p.patient_name, p.insurer_name with
    | some pn, some insn =>
        S ++ [⟨p.id, pn, p.billed_amount, p.paid_amount, p.status, insn,
          p.discharge_date, false⟩]
    | _, _ => S

/-- `Claim.objects.bulk_create(batch, ignore_conflicts=True)`. -/
def bulkCreateClaims (S : ClaimStore) (batch : List PendingClaim) : ClaimStore :=
  batch.foldl insertIgnore S

/-- A pending claim that SQLite's IGNORE resolution always drops: one of its
NOT NULL string columns is None. -/
def nullPC (p : PendingClaim) : Prop :=
  p.patient_name = none ∨ p.insurer_name = none

/-- The `batch_size = 1000` constant of both import loops. -/
def batch_size : Nat := 1000

/-- Result of a run of the claims import loop: the store after all executed
batch inserts, the `imported_count` accumulated so far, and the exception that
escaped the loop, if any. -/
structure LoadResult where
  store : ClaimStore
  count : Nat
  error : Option PyError
deriving DecidableEq, Repr

/-- The row loop of `import_claims` (the method of that name on the management
command): per-row `ValueError`/`KeyError` are caught and the row skipped;
`InvalidOperation` and `TypeError` are not caught, so they abort the loop,
discarding the pending batch but keeping every batch already flushed. -/
def loadClaimsLoop : List Row → ClaimStore → List PendingClaim → Nat → LoadResult
  | [], S, batch, n =>
      if batch.isEmpty then ⟨S, n, none⟩
      else ⟨bulkCreateClaims S batch, n + batch.length, none⟩
  | row :: rest, S, batch, n =>
      match mapClaimRow row with
      | .ok c =>
          if batch_size ≤ (batch ++ [c]).length then
            loadClaimsLoop rest (bulkCreateClaims S (batch ++ [c])) []
              (n + (batch ++ [c]).length)
          else
            loadClaimsLoop rest S (batch ++ [c]) n
      | .error .valueError => loadClaimsLoop rest S batch n
      | .error .keyError => loadClaimsLoop rest S batch n
      | .error .invalidOperation => ⟨S, n, some .invalidOperation⟩
      | .error .typeError => ⟨S, n, some .typeError⟩

/-- `import_claims` on an already-dict-read sequence of rows, against store `S`. -/
def loadClaims (rows : List Row) (S : ClaimStore) : LoadResult :=
  loadClaimsLoop rows S [] 0

/-- A detail row as built inside `import_claim_details` before insertion: the
auto primary key is assigned by the store at insert time, and `cpt_codes`
comes straight from the dict row, so it can still hold Python `None` (a short
data line). -/
structure DetailRow where
  claim_id : Int
  cpt_codes : Option String
  denial_reason : Option String
deriving DecidableEq, Repr

/-- Claim ids referenced by the detail store. -/
def detailClaimIds (D : DetailStore) : List Int := D.map (·.claim_id)

/-- One row of `ClaimDetail.objects.bulk_create(..., ignore_conflicts=True)` on
SQLite (`INSERT OR IGNORE`): the one-to-one field puts a unique constraint on
`claim_id`, so a duplicate `claim_id` is silently skipped, and a row with a
None `cpt_codes` violates that column's NOT NULL constraint and is likewise
silently skipped; an inserted row receives the next primary key. -/
def insertDetailIgnore (D : DetailStore) (r : DetailRow) : DetailStore :=
  if r.claim_id ∈ detailClaimIds D then D
  else
    match r.cpt_codes with
    | some cpt => D ++ [⟨D.length + 1, r.claim_id, cpt, r.denial_reason⟩]
    | none => D

/-- `ClaimDetail.objects.bulk_create(batch, ignore_conflicts=True)`. -/
def bulkCreateDetails (D : DetailStore) (batch : List DetailRow) : DetailStore :=
  batch.foldl insertDetailIgnore D

/-- `int(row['claim_id'])`, the first statement of the detail row loop: a
missing key raises `KeyError`, a None value (short data line) raises
`TypeError`, malformed text raises `ValueError`. -/
def detailRowClaimId (row : Row) : Except PyError Int := do
  let cidV ← rowGet row "claim_id"
  parseIntV cidV

/-- The sentinel normalisation in `import_claim_details`: the literal string
N/A becomes None, everything else (the empty string included) passes through. -/
def mapDenialReason (raw : String) : Option String :=
  if raw = "N/A" then none else some raw

/-- The same normalisation on the row value: a None value is not equal to the
sentinel string, so it passes through as None (the column is nullable). -/
def mapDenialReasonV : Option String → Option String
  | none => none
  | some raw => mapDenialReason raw

/-- Outcome of one iteration of the detail row loop before batching. -/
inductive DetailRowResult
  | ok (r : DetailRow)
  | orphan (claim_id : Int)
  | err (e : PyError)
deriving DecidableEq, Repr

/-- The body of the `for row in reader` loop of `import_claim_details`, in
source order: parse `claim_id`, check existence against the claim store
(skip-with-warning when absent), then read the remaining fields. -/
def mapDetailRow (S : ClaimStore) (row : Row) : DetailRowResult :=
  match detailRowClaimId row with
  | .error e => .err e
  | .ok cid =>
      if cid ∈ idsOf S then
        match (do
          let dr ← rowGet row "denial_reason"
          let cpt ← rowGet row "cpt_codes"
          pure (DetailRow.mk cid cpt (mapDenialReasonV dr)) :
            Except PyError DetailRow) with
        | .ok r => .ok r
        | .error e => .err e
      else .orphan cid

/-- Result of a run of the details import loop: the store after all executed
batch inserts, the `imported_count` accumulated so far, and the exception that
escaped the loop, if any. -/
structure DetailLoadResult where
  store : DetailStore
  count : Nat
  error : Option PyError
deriving DecidableEq, Repr

/-- The row loop of `import_claim_details`: orphan rows (unknown claim id) and
rows raising `ValueError`/`KeyError` are skipped with a warning; valid rows
batch up and are bulk-inserted with conflicts ignored; a `TypeError` (from
`int(None)` on a short row) or an `InvalidOperation` is not caught and aborts
the loop, discarding the pending batch. -/
def loadDetailsLoop (S : ClaimStore) :
    List Row → DetailStore → List DetailRow → Nat → DetailLoadResult
  | [], D, batch, n =>
      if batch.isEmpty then ⟨D, n, none⟩
      else ⟨bulkCreateDetails D batch, n + batch.length, none⟩
  | row :: rest, D, batch, n =>
      match mapDetailRow S row with
      | .ok r =>
          if batch_size ≤ (batch ++ [r]).length then
            loadDetailsLoop S rest (bulkCreateDetails D (batch ++ [r])) []
              (n + (batch ++ [r]).length)
          else
            loadDetailsLoop S rest D (batch ++ [r]) n
      | .orphan _ => loadDetailsLoop S rest D batch n
      | .err .valueError => loadDetailsLoop S rest D batch n
      | .err .keyError => loadDetailsLoop S rest D batch n
      | .err .invalidOperation => ⟨D, n, some .invalidOperation⟩
      | .err .typeError => ⟨D, n, some .typeError⟩

/-- `import_claim_details` on dict-read rows, against claim store `S` and
detail store `D`. -/
def loadDetails (S : ClaimStore) (rows : List Row) (D : DetailStore) : DetailLoadResult :=
  loadDetailsLoop S rows D [] 0

/-! ## Exporter (`export_csv` generators in views.py) -/

/-- Left-pad a digit-character list with zeros to width `n` (`strftime` and
decimal zero padding). -/
def padZeros (cs : List Char) (n : Nat) : List Char :=
  List.replicate (n - cs.length) '0' ++ cs

/-- `claim.discharge_date.strftime('%Y-%m-%d')`. -/
def formatDate (d : Date) : String :=
  String.mk (padZeros (toString d.year).toList 4 ++ ['-'] ++
    padZeros (toString d.month).toList 2 ++ ['-'] ++
    padZeros (toString d.day).toList 2)

/-- `str(decimal)`: render the coefficient with `exp` decimal places, exactly as
Python prints a plain (non-exponent) `Decimal`. -/
def renderDec (d : Dec) : String :=
  let sign : List Char := if d.coeff < 0 then ['-'] else []
  let digits := (toString d.coeff.natAbs).toList
  if d.exp = 0 then String.mk (sign ++ digits)
  else
    let digits2 := if digits.length ≤ d.exp then padZeros digits (d.exp + 1) else digits
    String.mk (sign ++ digits2.take (digits2.length - d.exp) ++ ['.'] ++
      digits2.drop (digits2.length - d.exp))

/-- `'|'.join(fields)`. -/
def joinPipe : List String → String
  | [] => ""
  | [f] => f
  | f :: rest => f ++ "|" ++ joinPipe rest

/-- The expected claims header sequence (shared by validator and exporter). -/
def expected_claims_headers : List String :=
  ["id", "patient_name", "billed_amount", "paid_amount", "status", "insurer_name",
   "discharge_date"]

/-- The expected details header sequence (shared by validator and exporter). -/
def expected_details_headers : List String :=
  ["id", "claim_id", "denial_reason", "cpt_codes"]

/-- One data line of `generate_claims_csv`: note that the status field is
`claim.status`, the internal lowercase token, not the display label. -/
def exportClaimLine (c : Claim) : String :=
  joinPipe [toString c.id, c.patient_name, renderDec c.billed_amount,
    renderDec c.paid_amount, c.status.code, c.insurer_name,
    formatDate c.discharge_date]

/-- `generate_claims_csv`: header line then one line per stored claim. -/
def generate_claims_csv (S : ClaimStore) : List String :=
  joinPipe expected_claims_headers :: S.map exportClaimLine

/-- `detail.denial_reason or 'N/A'`: Python `or` takes the right operand on any
falsy left operand, so both None and the empty string render as N/A. -/
def renderDenial : Option String → String
  | none => "N/A"
  | some s => if s = "" then "N/A" else s

/-- One data line of `generate_details_csv`. -/
def exportDetailLine (d : ClaimDetail) : String :=
  joinPipe [toString d.pk, toString d.claim_id, renderDenial d.denial_reason,
    d.cpt_codes]

/-- `generate_details_csv`: header line then one line per stored detail. -/
def generate_details_csv (D : DetailStore) : List String :=
  joinPipe expected_details_headers :: D.map exportDetailLine

/-- `csv.reader(f, delimiter=pipe)` on one line. -/
def splitPipe (line : String) : List String := splitChar '|' line

/-- Pair the header names with a data line's fields the way `csv.DictReader`
does: a short line leaves the trailing names bound to `restval` (None), and
fields beyond the header go to the non-string `restkey` entry, invisible to
the string-keyed accesses the loops perform. -/
def padNone : List String → List String → Row
  | [], _ => []
  | nm :: names, [] => (nm, none) :: padNone names []
  | nm :: names, f :: fields => (nm, some f) :: padNone names fields

/-- `csv.DictReader(f, delimiter=pipe)`: the first line gives the field names,
each further non-blank line becomes a dict over exactly those names (blank
lines yield an empty reader row, which `DictReader` skips). -/
def dictRows (lines : List String) : List Row :=
  match lines with
  | [] => []
  | hdr :: rest =>
      (rest.filter (fun l => l ≠ "")).map
        (fun l => padNone (splitPipe hdr) (splitPipe l))

/-! ## Aggregator (the `dashboard` view in views.py)

SQL `Sum`/`Avg` aggregates return NULL (Python `None`) over an empty row set,
modelled as `Option`; the view then applies Python `or Decimal(0)` defaulting
and truthiness tests, modelled explicitly below. -/

/-- `Claim.objects.count()`. -/
def total_claims (S : ClaimStore) : Nat := S.length

/-- `Claim.objects.filter(is_flagged=True).count()`. -/
def flagged_claims (S : ClaimStore) : Nat := (S.filter (·.is_flagged)).length

/-- `Sum('billed_amount')`: NULL on an empty store. -/
def sumBilled (S : ClaimStore) : Option ℚ :=
  if S.isEmpty then none else some ((S.map (fun c => c.billed_amount.toRat)).sum)

/-- `Sum('paid_amount')`: NULL on an empty store. -/
def sumPaid (S : ClaimStore) : Option ℚ :=
  if S.isEmpty then none else some ((S.map (fun c => c.paid_amount.toRat)).sum)

/-- `Avg('billed_amount')`: NULL on an empty store. -/
def avgBilled (S : ClaimStore) : Option ℚ :=
  if S.isEmpty then none
  else some ((S.map (fun c => c.billed_amount.toRat)).sum / (S.length : ℚ))

/-- `Avg('paid_amount')`: NULL on an empty store. -/
def avgPaid (S : ClaimStore) : Option ℚ :=
  if S.isEmpty then none
  else some ((S.map (fun c => c.paid_amount.toRat)).sum / (S.length : ℚ))

/-- Python `x or Decimal(0)`: the right operand replaces both None and zero
(both falsy); the replacement is value-preserving for zero. -/
def pyOrZero : Option ℚ → ℚ
  | none => 0
  | some q => if q = 0 then 0 else q

/-- Python truthiness of an optional decimal: None and zero are falsy. -/
def truthyQ : Option ℚ → Bool
  | none => false
  | some q => decide (q ≠ 0)

/-- `total_billed = financial_stats['total_billed'] or Decimal('0')`. -/
def total_billed (S : ClaimStore) : ℚ := pyOrZero (sumBilled S)

/-- `total_paid = financial_stats['total_paid'] or Decimal('0')`. -/
def total_paid (S : ClaimStore) : ℚ := pyOrZero (sumPaid S)

/-- `total_underpayment = total_billed - total_paid`. -/
def total_underpayment (S : ClaimStore) : ℚ := total_billed S - total_paid S

/-- The guarded average difference from the dashboard view:
`avg_billed - avg_paid if avg_billed and avg_paid else Decimal('0')`.
The guard is Python truthiness, so a zero average (not only a NULL one)
selects the `else` branch. -/
def avg_underpayment (S : ClaimStore) : ℚ :=
  if truthyQ (avgBilled S) && truthyQ (avgPaid S) then
    (avgBilled S).getD 0 - (avgPaid S).getD 0
  else 0

/-- The context entry `avg_billed`: the raw aggregate with `or Decimal('0')`. -/
def ctx_avg_billed (S : ClaimStore) : ℚ := pyOrZero (avgBilled S)

/-- The context entry `avg_paid`: the raw aggregate with `or Decimal('0')`. -/
def ctx_avg_paid (S : ClaimStore) : ℚ := pyOrZero (avgPaid S)

/-- `Claim.objects.filter(status=code).count()`. -/
def countStatus (S : ClaimStore) (st : Status) : Nat :=
  (S.filter (fun c => c.status = st)).length

/-- The `status_counts` dict built by looping over `STATUS_CHOICES`: the keys
are the display names, in source order (the five names are distinct, so the
dict is this association list). -/
def status_counts (S : ClaimStore) : List (String × Nat) :=
  STATUS_CHOICES.map (fun p => (p.2, countStatus S p.1))

/-- One group of the `top_insurers` query. -/
structure InsurerStat where
  insurer_name : String
  claim_count : Nat
  sum_billed : ℚ
  sum_paid : ℚ
deriving DecidableEq, Repr

/-- Insertion into a list sorted descending by `claim_count` (stable; ties keep
arrival order, which the spec leaves unspecified). -/
def insertByCountDesc (x : InsurerStat) : List InsurerStat → List InsurerStat
  | [] => [x]
  | y :: ys => if y.claim_count < x.claim_count then x :: y :: ys
               else y :: insertByCountDesc x ys

/-- Sort descending by claim count. -/
def sortByCountDesc (l : List InsurerStat) : List InsurerStat :=
  l.foldr insertByCountDesc []

/-- `top_insurers`: group by insurer name, annotate count and sums, order by
descending count, take 5. -/
def top_insurers (S : ClaimStore) : List InsurerStat :=
  let names := (S.map (·.insurer_name)).dedup
  (sortByCountDesc (names.map (fun nm =>
    let group := S.filter (fun c => c.insurer_name = nm)
    ⟨nm, group.length, (group.map (fun c => c.billed_amount.toRat)).sum,
      (group.map (fun c => c.paid_amount.toRat)).sum⟩))).take 5

/-- One group of the `monthly_stats` query. -/
structure MonthStat where
  month : String
  count : Nat
  sum_billed : ℚ
  sum_paid : ℚ
deriving DecidableEq, Repr

/-- Lexicographic order on character lists, for the SQL `ORDER BY month`. -/
def charListLt : List Char → List Char → Bool
  | [], [] => false
  | [], _ :: _ => true
  | _ :: _, [] => false
  | a :: as, b :: bs =>
      if a.toNat < b.toNat then true
      else if b.toNat < a.toNat then false
      else charListLt as bs

/-- String comparison used to order month labels. -/
def strLtB (a b : String) : Bool := charListLt a.toList b.toList

/-- Insertion into a list sorted descending by month label. -/
def insertByMonthDesc (x : MonthStat) : List MonthStat → List MonthStat
  | [] => [x]
  | y :: ys => if strLtB y.month x.month then x :: y :: ys
               else y :: insertByMonthDesc x ys

/-- Sort month groups descending by label. -/
def sortByMonthDesc (l : List MonthStat) : List MonthStat :=
  l.foldr insertByMonthDesc []

/-- `monthly_stats`: group claims by the creation year-month label, annotate
count and sums, order by month descending, take 6.  The creation timestamp is
not part of the imported data, so the month label of a stored claim is an
explicit parameter. -/
def monthly_stats (createdMonth : Claim → String) (S : ClaimStore) : List MonthStat :=
  let months := (S.map createdMonth).dedup
  (sortByMonthDesc (months.map (fun m =>
    let group := S.filter (fun c => createdMonth c = m)
    ⟨m, group.length, (group.map (fun c => c.billed_amount.toRat)).sum,
      (group.map (fun c => c.paid_amount.toRat)).sum⟩))).take 6

/-! ## CSV Validator and upload control flow (views.py) -/

/-- A structured reading of the error strings `validate_csv_files` appends:
the header-mismatch message interpolates the expected and the actual header
lists, the arity message the 1-based row number and both column counts, and
any exception while reading becomes a read-error message for that file. -/
inductive ValidationError
  | headerMismatch (which : String) (expected actual : List String)
  | rowArity (which : String) (rowNum cols expectedCols : Nat)
  | readError (which : String)
deriving DecidableEq, Repr

/-- The arity loop: `for i, row in enumerate(reader)` checking at most the
first 3 data rows and stopping at the first mismatch (row number `i + 2`,
the header being row 1). -/
def checkRows (which : String) (expectedLen : Nat) :
    Nat → List (List String) → List ValidationError
  | _, [] => []
  | i, row :: rest =>
      if 3 ≤ i then []
      else if row.length ≠ expectedLen then
        [.rowArity which (i + 2) row.length expectedLen]
      else checkRows which expectedLen (i + 1) rest

/-- Validation of one file (already read into pipe-split rows): an empty file
makes `next(reader)` raise, caught as a read error; otherwise the first row is
compared against the expected header sequence and the first data rows are
arity-checked. -/
def validateFile (which : String) (expected : List String)
    (file : List (List String)) : List ValidationError :=
  match file with
  | [] => [.readError which]
  | headers :: rest =>
      (if headers ≠ expected then [.headerMismatch which expected headers] else [])
        ++ checkRows which expected.length 0 rest

/-- `validate_csv_files`: claims file first, then details file, accumulating
one error list. -/
def validate_csv_files (claimsFile detailsFile : List (List String)) :
    List ValidationError :=
  validateFile "claims" expected_claims_headers claimsFile
    ++ validateFile "details" expected_details_headers detailsFile

/-- The two stores together. -/
structure Stores where
  claims : ClaimStore
  details : DetailStore
deriving DecidableEq, Repr

/-- What `handle_csv_upload` did with the uploaded pair of files. -/
inductive UploadOutcome
  | validationFailed (errors : List ValidationError)
  | importFailed
  | imported (claimsCount detailsCount : Nat)
deriving DecidableEq, Repr

/-- `handle_csv_upload` after the two files are saved to temporary storage:
validate; when the error list is non-empty, report it and return without
invoking the import command; otherwise clear the stores when the mode is
overwrite and run the claims import followed by the details import (an
exception escaping the command surfaces as an import-failed message). -/
def handle_csv_upload (mode : String) (claimsLines detailsLines : List String)
    (st : Stores) : UploadOutcome × Stores :=
  let errors := validate_csv_files (claimsLines.map splitPipe)
    (detailsLines.map splitPipe)
  if errors ≠ [] then (.validationFailed errors, st)
  else
    let st1 : Stores := if mode = "overwrite" then ⟨[], []⟩ else st
    let r1 := loadClaims (dictRows claimsLines) st1.claims
    match r1.error with
    | some _ => (.importFailed, ⟨r1.store, st1.details⟩)
    | none =>
        let r2 := loadDetails r1.store (dictRows detailsLines) st1.details
        match r2.error with
        | some _ => (.importFailed, ⟨r1.store, r2.store⟩)
        | none => (.imported r1.count r2.count, ⟨r1.store, r2.store⟩)

/-- The round trip of C1: export the claims store, then re-import the produced
file with `clear=true` (so against an empty store). -/
def roundTripClaims (S : ClaimStore) : LoadResult :=
  loadClaims (dictRows (generate_claims_csv S)) []

/-! ## Invariants of the conflict-ignoring batch insert -/

theorem idsOf_insertIgnore_subset (S : ClaimStore) (p : PendingClaim) :
    idsOf S ⊆ idsOf (insertIgnore S p) := by
  unfold insertIgnore
  split
  · exact fun x hx => hx
  · split
    · intro x hx
      simp only [idsOf, List.map_append, List.map_cons, List.map_nil,
        List.mem_append]
      exact Or.inl hx
    · exact fun x hx => hx

/-- After one `INSERT OR IGNORE` row, the row's id is present — unless the row
violates a NOT NULL column, in which case it was silently dropped. -/
theorem mem_idsOf_insertIgnore (S : ClaimStore) (p : PendingClaim) :
    p.id ∈ idsOf (insertIgnore S p) ∨ nullPC p := by
  unfold insertIgnore
  split
  · exact Or.inl (by assumption)
  · rcases hpn : p.patient_name with _ | pn
    · exact Or.inr (Or.inl hpn)
    · rcases hins : p.insurer_name with _ | insn
      · exact Or.inr (Or.inr hins)
      · exact Or.inl (by simp [idsOf])

theorem insertIgnore_of_mem (S : ClaimStore) (p : PendingClaim)
    (h : p.id ∈ idsOf S) : insertIgnore S p = S := by
  unfold insertIgnore
  simp [h]

theorem insertIgnore_of_null (S : ClaimStore) (p : PendingClaim)
    (h : nullPC p) : insertIgnore S p = S := by
  unfold insertIgnore
  split
  · rfl
  · rcases h with h | h
    · rw [h]
    · rcases hpn : p.patient_name with _ | pn
      · rfl
      · rw [h]

theorem idsOf_bulkCreate_subset (batch : List PendingClaim) :
    ∀ S : ClaimStore, idsOf S ⊆ idsOf (bulkCreateClaims S batch) := by
  induction batch with
  | nil => exact fun S x hx => hx
  | cons b rest ih =>
      intro S x hx
      exact ih (insertIgnore S b) (idsOf_insertIgnore_subset S b hx)

theorem mem_idsOf_bulkCreate (batch : List PendingClaim) :
    ∀ (S : ClaimStore) (p : PendingClaim), p ∈ batch →
      p.id ∈ idsOf (bulkCreateClaims S batch) ∨ nullPC p := by
  induction batch with
  | nil => intro S p hp; cases hp
  | cons b rest ih =>
      intro S p hp
      rcases List.mem_cons.mp hp with h | h
      · subst h
        rcases mem_idsOf_insertIgnore S p with h2 | h2
        · exact Or.inl (idsOf_bulkCreate_subset rest (insertIgnore S p) h2)
        · exact Or.inr h2
      · exact ih (insertIgnore S b) p h

theorem bulkCreate_noop (batch : List PendingClaim) :
    ∀ S : ClaimStore, (∀ p ∈ batch, p.id ∈ idsOf S ∨ nullPC p) →
      bulkCreateClaims S batch = S := by
  induction batch with
  | nil => intro S _; rfl
  | cons b rest ih =>
      intro S h
      have hb : insertIgnore S b = S := by
        rcases h b (by simp) with h2 | h2
        · exact insertIgnore_of_mem S b h2
        · exact insertIgnore_of_null S b h2
      show bulkCreateClaims (insertIgnore S b) rest = S
      rw [hb]
      exact ih S (fun p hp => h p (List.mem_cons_of_mem b hp))

/-! ## Invariants of the claims import loop -/

theorem loadClaimsLoop_nil (S : ClaimStore) (batch : List PendingClaim) (n : Nat) :
    loadClaimsLoop [] S batch n =
      if batch.isEmpty then ⟨S, n, none⟩
      else ⟨bulkCreateClaims S batch, n + batch.length, none⟩ := rfl

theorem loadClaimsLoop_cons_ok {r : Row} {c : PendingClaim}
    (hm : mapClaimRow r = .ok c)
    (rest : List Row) (S : ClaimStore) (batch : List PendingClaim) (n : Nat) :
    loadClaimsLoop (r :: rest) S batch n =
      if batch_size ≤ (batch ++ [c]).length then
        loadClaimsLoop rest (bulkCreateClaims S (batch ++ [c])) []
          (n + (batch ++ [c]).length)
      else loadClaimsLoop rest S (batch ++ [c]) n := by
  simp only [loadClaimsLoop, hm]

theorem loadClaimsLoop_cons_value {r : Row} (hm : mapClaimRow r = .error .valueError)
    (rest : List Row) (S : ClaimStore) (batch : List PendingClaim) (n : Nat) :
    loadClaimsLoop (r :: rest) S batch n = loadClaimsLoop rest S batch n := by
  simp only [loadClaimsLoop, hm]

theorem loadClaimsLoop_cons_key {r : Row} (hm : mapClaimRow r = .error .keyError)
    (rest : List Row) (S : ClaimStore) (batch : List PendingClaim) (n : Nat) :
    loadClaimsLoop (r :: rest) S batch n = loadClaimsLoop rest S batch n := by
  simp only [loadClaimsLoop, hm]

theorem loadClaimsLoop_cons_invalid {r : Row}
    (hm : mapClaimRow r = .error .invalidOperation)
    (rest : List Row) (S : ClaimStore) (batch : List PendingClaim) (n : Nat) :
    loadClaimsLoop (r :: rest) S batch n = ⟨S, n, some .invalidOperation⟩ := by
  simp only [loadClaimsLoop, hm]

theorem loadClaimsLoop_cons_type {r : Row}
    (hm : mapClaimRow r = .error .typeError)
    (rest : List Row) (S : ClaimStore) (batch : List PendingClaim) (n : Nat) :
    loadClaimsLoop (r :: rest) S batch n = ⟨S, n, some .typeError⟩ := by
  simp only [loadClaimsLoop, hm]

theorem loadClaimsLoop_ids_mono (rows : List Row) :
    ∀ (S : ClaimStore) (batch : List PendingClaim) (n : Nat),
      idsOf S ⊆ idsOf (loadClaimsLoop rows S batch n).store := by
  induction rows with
  | nil =>
      intro S batch n
      rw [loadClaimsLoop_nil]
      split
      · exact fun x hx => hx
      · exact idsOf_bulkCreate_subset batch S
  | cons r rest ih =>
      intro S batch n
      cases hm : mapClaimRow r with
      | ok c =>
          rw [loadClaimsLoop_cons_ok hm]
          by_cases hb : batch_size ≤ (batch ++ [c]).length
          · rw [if_pos hb]
            exact fun x hx =>
              ih (bulkCreateClaims S (batch ++ [c])) [] (n + (batch ++ [c]).length)
                (idsOf_bulkCreate_subset (batch ++ [c]) S hx)
          · rw [if_neg hb]
            exact ih S (batch ++ [c]) n
      | error e =>
          cases e with
          | valueError => rw [loadClaimsLoop_cons_value hm]; exact ih S batch n
          | keyError => rw [loadClaimsLoop_cons_key hm]; exact ih S batch n
          | invalidOperation =>
              rw [loadClaimsLoop_cons_invalid hm]; exact fun x hx => hx
          | typeError =>
              rw [loadClaimsLoop_cons_type hm]; exact fun x hx => hx

/-- On a run that finishes without an uncaught exception, every row of the
pending batch and every row successfully mapped from a remaining line ends up
(by id) in the final store — except the rows SQLite's IGNORE resolution drops
for a NOT NULL violation, which no run can ever insert. -/
theorem loadClaimsLoop_success_mem (rows : List Row) :
    ∀ (S : ClaimStore) (batch : List PendingClaim) (n : Nat),
      (loadClaimsLoop rows S batch n).error = none →
      (∀ p ∈ batch,
        p.id ∈ idsOf (loadClaimsLoop rows S batch n).store ∨ nullPC p) ∧
      (∀ r ∈ rows, ∀ p : PendingClaim, mapClaimRow r = .ok p →
        p.id ∈ idsOf (loadClaimsLoop rows S batch n).store ∨ nullPC p) := by
  induction rows with
  | nil =>
      intro S batch n _
      constructor
      · intro p hp
        rw [loadClaimsLoop_nil]
        split
        · rename_i hemp
          rw [List.isEmpty_iff] at hemp
          subst hemp
          cases hp
        · exact mem_idsOf_bulkCreate batch S p hp
      · intro r hr
        cases hr
  | cons r rest ih =>
      intro S batch n herr
      cases hm : mapClaimRow r with
      | ok c =>
          rw [loadClaimsLoop_cons_ok hm] at herr ⊢
          by_cases hb : batch_size ≤ (batch ++ [c]).length
          · rw [if_pos hb] at herr ⊢
            have ih2 := ih (bulkCreateClaims S (batch ++ [c])) []
              (n + (batch ++ [c]).length) herr
            have hflush : ∀ p ∈ batch ++ [c],
                p.id ∈ idsOf (loadClaimsLoop rest
                  (bulkCreateClaims S (batch ++ [c])) []
                  (n + (batch ++ [c]).length)).store ∨ nullPC p := by
              intro p hp
              rcases mem_idsOf_bulkCreate (batch ++ [c]) S p hp with h2 | h2
              · exact Or.inl (loadClaimsLoop_ids_mono rest _ [] _ h2)
              · exact Or.inr h2
            refine ⟨fun p hp => hflush p (by simp [hp]), ?_⟩
            intro r2 hr2 p hp
            rcases List.mem_cons.mp hr2 with h | h
            · subst h
              have hcd : c = p := by
                rw [hm] at hp
                exact Except.ok.inj hp
              subst hcd
              exact hflush c (by simp)
            · exact ih2.2 r2 h p hp
          · rw [if_neg hb] at herr ⊢
            have ih2 := ih S (batch ++ [c]) n herr
            refine ⟨?_, ?_⟩
            · intro p hp
              exact ih2.1 p (by simp [hp])
            · intro r2 hr2 p hp
              rcases List.mem_cons.mp hr2 with h | h
              · subst h
                have hcd : c = p := by
                  rw [hm] at hp
                  exact Except.ok.inj hp
                subst hcd
                exact ih2.1 c (by simp)
              · exact ih2.2 r2 h p hp
      | error e =>
          cases e with
          | valueError =>
              rw [loadClaimsLoop_cons_value hm] at herr ⊢
              have ih2 := ih S batch n herr
              refine ⟨ih2.1, ?_⟩
              intro r2 hr2 p hp
              rcases List.mem_cons.mp hr2 with h | h
              · subst h; rw [hm] at hp; cases hp
              · exact ih2.2 r2 h p hp
          | keyError =>
              rw [loadClaimsLoop_cons_key hm] at herr ⊢
              have ih2 := ih S batch n herr
              refine ⟨ih2.1, ?_⟩
              intro r2 hr2 p hp
              rcases List.mem_cons.mp hr2 with h | h
              · subst h; rw [hm] at hp; cases hp
              · exact ih2.2 r2 h p hp
          | invalidOperation =>
              rw [loadClaimsLoop_cons_invalid hm] at herr
              cases herr
          | typeError =>
              rw [loadClaimsLoop_cons_type hm] at herr
              cases herr

/-- On a run that finishes without an uncaught exception, no remaining row
maps to one of the two escaping exceptions (`InvalidOperation`, `TypeError`). -/
theorem loadClaimsLoop_success_no_escape (rows : List Row) :
    ∀ (S : ClaimStore) (batch : List PendingClaim) (n : Nat),
      (loadClaimsLoop rows S batch n).error = none →
      ∀ r ∈ rows, mapClaimRow r ≠ .error .invalidOperation ∧
        mapClaimRow r ≠ .error .typeError := by
  induction rows with
  | nil => intro S batch n _ r hr; cases hr
  | cons r rest ih =>
      intro S batch n herr r2 hr2
      cases hm : mapClaimRow r with
      | ok c =>
          rw [loadClaimsLoop_cons_ok hm] at herr
          rcases List.mem_cons.mp hr2 with h | h
          · subst h; rw [hm]
            refine ⟨fun hcon => ?_, fun hcon => ?_⟩ <;> simp at hcon
          · by_cases hb : batch_size ≤ (batch ++ [c]).length
            · rw [if_pos hb] at herr
              exact ih _ [] _ herr r2 h
            · rw [if_neg hb] at herr
              exact ih S (batch ++ [c]) n herr r2 h
      | error e =>
          cases e with
          | valueError =>
              rw [loadClaimsLoop_cons_value hm] at herr
              rcases List.mem_cons.mp hr2 with h | h
              · subst h; rw [hm]
                refine ⟨fun hcon => ?_, fun hcon => ?_⟩ <;> simp at hcon
              · exact ih S batch n herr r2 h
          | keyError =>
              rw [loadClaimsLoop_cons_key hm] at herr
              rcases List.mem_cons.mp hr2 with h | h
              · subst h; rw [hm]
                refine ⟨fun hcon => ?_, fun hcon => ?_⟩ <;> simp at hcon
              · exact ih S batch n herr r2 h
          | invalidOperation =>
              rw [loadClaimsLoop_cons_invalid hm] at herr
              cases herr
          | typeError =>
              rw [loadClaimsLoop_cons_type hm] at herr
              cases herr

/-- A run over rows whose successfully mapped claims all have ids already in
the store (or are NOT-NULL-dropped rows), and which contains no row raising an
escaping exception, leaves the store untouched and finishes cleanly. -/
theorem loadClaimsLoop_noop (rows : List Row) :
    ∀ (S : ClaimStore) (batch : List PendingClaim) (n : Nat),
      (∀ r ∈ rows, ∀ p : PendingClaim, mapClaimRow r = .ok p →
        p.id ∈ idsOf S ∨ nullPC p) →
      (∀ r ∈ rows, mapClaimRow r ≠ .error .invalidOperation ∧
        mapClaimRow r ≠ .error .typeError) →
      (∀ p ∈ batch, p.id ∈ idsOf S ∨ nullPC p) →
      (loadClaimsLoop rows S batch n).store = S ∧
      (loadClaimsLoop rows S batch n).error = none := by
  induction rows with
  | nil =>
      intro S batch n _ _ hbatch
      rw [loadClaimsLoop_nil]
      split
      · exact ⟨rfl, rfl⟩
      · rw [bulkCreate_noop batch S hbatch]
        exact ⟨rfl, rfl⟩
  | cons r rest ih =>
      intro S batch n hrows hnoesc hbatch
      cases hm : mapClaimRow r with
      | ok c =>
          rw [loadClaimsLoop_cons_ok hm]
          have hc : c.id ∈ idsOf S ∨ nullPC c := hrows r (by simp) c hm
          have hbatch2 : ∀ p ∈ batch ++ [c], p.id ∈ idsOf S ∨ nullPC p := by
            intro p hp
            rcases List.mem_append.mp hp with h | h
            · exact hbatch p h
            · rcases List.mem_singleton.mp h with rfl
              exact hc
          by_cases hb : batch_size ≤ (batch ++ [c]).length
          · rw [if_pos hb]
            rw [bulkCreate_noop (batch ++ [c]) S hbatch2]
            exact ih S [] _ (fun r2 h2 => hrows r2 (by simp [h2]))
              (fun r2 h2 => hnoesc r2 (by simp [h2])) (by intro p hp; cases hp)
          · rw [if_neg hb]
            exact ih S (batch ++ [c]) n (fun r2 h2 => hrows r2 (by simp [h2]))
              (fun r2 h2 => hnoesc r2 (by simp [h2])) hbatch2
      | error e =>
          cases e with
          | valueError =>
              rw [loadClaimsLoop_cons_value hm]
              exact ih S batch n (fun r2 h2 => hrows r2 (by simp [h2]))
                (fun r2 h2 => hnoesc r2 (by simp [h2])) hbatch
          | keyError =>
              rw [loadClaimsLoop_cons_key hm]
              exact ih S batch n (fun r2 h2 => hrows r2 (by simp [h2]))
                (fun r2 h2 => hnoesc r2 (by simp [h2])) hbatch
          | invalidOperation =>
              exact absurd hm (hnoesc r (by simp)).1
          | typeError =>
              exact absurd hm (hnoesc r (by simp)).2

/-! ## Invariants of the details import loop -/

theorem loadDetailsLoop_cons_orphan {S : ClaimStore} {r : Row} {cid : Int}
    (hm : mapDetailRow S r = .orphan cid) (rest : List Row) (D : DetailStore)
    (batch : List DetailRow) (n : Nat) :
    loadDetailsLoop S (r :: rest) D batch n = loadDetailsLoop S rest D batch n := by
  simp only [loadDetailsLoop, hm]

theorem loadDetailsLoop_cons_value {S : ClaimStore} {r : Row}
    (hm : mapDetailRow S r = .err .valueError) (rest : List Row)
    (D : DetailStore) (batch : List DetailRow) (n : Nat) :
    loadDetailsLoop S (r :: rest) D batch n = loadDetailsLoop S rest D batch n := by
  simp only [loadDetailsLoop, hm]

theorem loadDetailsLoop_cons_key {S : ClaimStore} {r : Row}
    (hm : mapDetailRow S r = .err .keyError) (rest : List Row)
    (D : DetailStore) (batch : List DetailRow) (n : Nat) :
    loadDetailsLoop S (r :: rest) D batch n = loadDetailsLoop S rest D batch n := by
  simp only [loadDetailsLoop, hm]

/-- When no row of the file survives the per-row checks (every row is an
orphan or raises a caught `ValueError`/`KeyError`), the loop leaves the detail
store untouched, returns the running count unchanged, and finishes without an
escaping exception. -/
theorem loadDetailsLoop_no_ok (S : ClaimStore) (rows : List Row) :
    (∀ r ∈ rows, ∀ d : DetailRow, mapDetailRow S r ≠ .ok d) →
    (∀ r ∈ rows, mapDetailRow S r ≠ .err .invalidOperation ∧
      mapDetailRow S r ≠ .err .typeError) →
    ∀ (D : DetailStore) (n : Nat), loadDetailsLoop S rows D [] n = ⟨D, n, none⟩ := by
  induction rows with
  | nil => intro _ _ D n; rfl
  | cons r rest ih =>
      intro h hesc D n
      cases hm : mapDetailRow S r with
      | ok d => exact absurd hm (h r (by simp) d)
      | orphan cid =>
          rw [loadDetailsLoop_cons_orphan hm]
          exact ih (fun r2 h2 => h r2 (by simp [h2]))
            (fun r2 h2 => hesc r2 (by simp [h2])) D n
      | err e =>
          cases e with
          | valueError =>
              rw [loadDetailsLoop_cons_value hm]
              exact ih (fun r2 h2 => h r2 (by simp [h2]))
                (fun r2 h2 => hesc r2 (by simp [h2])) D n
          | keyError =>
              rw [loadDetailsLoop_cons_key hm]
              exact ih (fun r2 h2 => h r2 (by simp [h2]))
                (fun r2 h2 => hesc r2 (by simp [h2])) D n
          | invalidOperation => exact absurd hm (hesc r (by simp)).1
          | typeError => exact absurd hm (hesc r (by simp)).2

/-- `rowGet` can only fail with `KeyError`. -/
theorem rowGet_error_eq {r : Row} {k : String} {e : PyError}
    (h : rowGet r k = .error e) : e = .keyError := by
  unfold rowGet at h
  cases hl : r.lookup k
  · rw [hl] at h
    exact (Except.error.inj h).symm
  · rw [hl] at h
    cases h

/-- Unfolding `int(row['claim_id'])` when the dict access succeeds. -/
theorem detailRowClaimId_of_get {r : Row} {v : Option String}
    (h : rowGet r "claim_id" = .ok v) : detailRowClaimId r = parseIntV v := by
  simp only [detailRowClaimId, h]
  rfl

/-- Unfolding `int(row['claim_id'])` when the dict access raises. -/
theorem detailRowClaimId_of_get_err {r : Row} {e : PyError}
    (h : rowGet r "claim_id" = .error e) : detailRowClaimId r = .error e := by
  simp only [detailRowClaimId, h]
  rfl

/-- When `int(row['claim_id'])` raises, the row loop lands in the error
branch with that exception. -/
theorem mapDetailRow_of_cid_err {r : Row} {e : PyError}
    (h : detailRowClaimId r = .error e) (S : ClaimStore) :
    mapDetailRow S r = .err e := by
  simp only [mapDetailRow, h]

/-- When the parsed claim id is absent from the claim store, the row loop lands
in the orphan branch. -/
theorem mapDetailRow_of_cid_orphan {r : Row} {i : Int}
    (h : detailRowClaimId r = .ok i) (S : ClaimStore) (hni : i ∉ idsOf S) :
    mapDetailRow S r = .orphan i := by
  simp only [mapDetailRow, h, if_neg hni]

/-! ## Concrete fixtures used by witnesses and counterexamples -/

/-- A stored claim whose status is approved (as produced by importing the
exchange label Paid). -/
def c1Claim : Claim :=
  ⟨1, "John Smith", ⟨10000, 2⟩, ⟨8000, 2⟩, .approved, "Blue Cross",
    ⟨2024, 1, 15⟩, false⟩

/-- The same claim with status pending: what the round trip actually stores. -/
def c1ClaimPending : Claim :=
  ⟨1, "John Smith", ⟨10000, 2⟩, ⟨8000, 2⟩, .pending, "Blue Cross",
    ⟨2024, 1, 15⟩, false⟩

/-- A dict-read claims row whose `billed_amount` text is not a decimal. -/
def badDecimalRow : Row :=
  [("id", some "1"), ("patient_name", some "Ann Lee"),
   ("billed_amount", some "12O.00"), ("paid_amount", some "0.00"),
   ("status", some "Pending"), ("insurer_name", some "Acme"),
   ("discharge_date", some "2024-01-15")]

/-- A dict-read claims row whose `discharge_date` text is malformed. -/
def badDateRow : Row :=
  [("id", some "2"), ("patient_name", some "Cy Fox"),
   ("billed_amount", some "10.00"), ("paid_amount", some "5.00"),
   ("status", some "Paid"), ("insurer_name", some "Acme"),
   ("discharge_date", some "2024-13-40")]

/-- A dict-read claims row with a missing `insurer_name` key (a file whose
header lacks that column). -/
def missingKeyRow : Row :=
  [("id", some "3"), ("patient_name", some "Di Poe"),
   ("billed_amount", some "10.00"), ("paid_amount", some "5.00"),
   ("status", some "Paid"), ("discharge_date", some "2024-06-30")]

/-- A well-formed dict-read claims row. -/
def goodClaimRow : Row :=
  [("id", some "11"), ("patient_name", some "Bob Ray"),
   ("billed_amount", some "250.00"), ("paid_amount", some "200.00"),
   ("status", some "Paid"), ("insurer_name", some "Acme"),
   ("discharge_date", some "2024-03-05")]

/-- A one-row claims file whose single row has a malformed decimal. -/
def badDecimalFile : List Row := [badDecimalRow]

/-- A two-row claims file: the malformed-decimal row followed by a good row. -/
def badThenGoodFile : List Row := [badDecimalRow, goodClaimRow]

/-- A one-row well-formed claims file. -/
def goodClaimsFile : List Row := [goodClaimRow]

/-! ## Claim theorems -/

/-- C1: the claimed export/import round trip fails on the status field.  The
export line for an approved claim renders the internal token `approved` (not
the exchange label `Paid`), the importer's status mapping sends that
unrecognised token to `pending`, and so exporting a store holding one approved
claim and re-importing the produced file with `clear=true` yields a store
whose claim differs from the original on the status field. -/
theorem c1_roundtrip_breaks_status :
    exportClaimLine c1Claim =
      "1|John Smith|100.00|80.00|approved|Blue Cross|2024-01-15" ∧
    mapStatus "approved" = Status.pending ∧
    (roundTripClaims [c1Claim]).store = [c1ClaimPending] ∧
    c1ClaimPending.status ≠ c1Claim.status := by decide

/-- C2 counterexample: for the one-row file whose `billed_amount` text is
malformed, running `loadClaims` twice in succession is not exception-free —
the second run (like the first) raises an uncaught `InvalidOperation`,
refuting the claim's for-every-file guarantee. -/
theorem c2_counterexample :
    (loadClaims badDecimalFile ((loadClaims badDecimalFile []).store)).error =
      some PyError.invalidOperation := by decide

/-- C2 (amended): for every claims file on which a run of `loadClaims` raises
no exception, running it a second time without a clear leaves the store with
exactly the same Claim rows (no duplicate ids inserted, no row overwritten —
the conflict-ignoring insert drops every re-sent row) and again raises no
exception. -/
theorem c2_loadClaims_idempotent (rows : List Row) (S : ClaimStore)
    (h : (loadClaims rows S).error = none) :
    (loadClaims rows (loadClaims rows S).store).store = (loadClaims rows S).store ∧
    (loadClaims rows (loadClaims rows S).store).error = none := by
  have hmem := loadClaimsLoop_success_mem rows S [] 0 h
  have hnoesc := loadClaimsLoop_success_no_escape rows S [] 0 h
  exact loadClaimsLoop_noop rows ((loadClaims rows S).store) [] 0
    (fun r hr p hp => hmem.2 r hr p hp) hnoesc (by intro p hp; cases hp)

/-- C2 witness: the idempotence theorem applied to a concrete one-row file. -/
theorem c2_loadClaims_idempotent_witness :
    (loadClaims goodClaimsFile []).error = none ∧
    ((loadClaims goodClaimsFile ((loadClaims goodClaimsFile []).store)).store =
        (loadClaims goodClaimsFile []).store ∧
      (loadClaims goodClaimsFile ((loadClaims goodClaimsFile []).store)).error =
        none) :=
  ⟨by decide, c2_loadClaims_idempotent goodClaimsFile [] (by decide)⟩

/-- The two lines of a details file whose single data line is short: the
reader leaves `claim_id` (and the later columns) bound to None. -/
def shortDetailLines : List String :=
  ["id|claim_id|denial_reason|cpt_codes", "5"]

/-- C6 counterexample: the short-row details file satisfies the claim's
hypothesis — no row's claim id matches an existing Claim (the parse never even
yields an id) — yet `loadDetails` does raise: `int(None)` throws a
`TypeError`, which `except (ValueError, KeyError)` does not catch, so an
exception escapes instead of the claimed silent skip. -/
theorem c6_counterexample :
    (∀ r ∈ dictRows shortDetailLines, ∀ i : Int,
        detailRowClaimId r = .ok i → i ∉ idsOf [c1Claim]) ∧
    (loadDetails [c1Claim] (dictRows shortDetailLines) []).error =
      some PyError.typeError := by
  constructor
  · intro r hr i hcid
    have hrows : dictRows shortDetailLines =
        [[("id", some "5"), ("claim_id", none), ("denial_reason", none),
          ("cpt_codes", none)]] := by decide
    rw [hrows] at hr
    rcases List.mem_singleton.mp hr with rfl
    have h2 : detailRowClaimId
        [(("id" : String), some "5"), ("claim_id", none),
          ("denial_reason", none), ("cpt_codes", none)] =
        Except.error PyError.typeError := by decide
    rw [h2] at hcid
    cases hcid
  · decide

/-- C6 (amended): when no row of the details file carries a claim id matching
a stored Claim AND no short data line leaves the `claim_id` field with a None
value, `loadDetails` inserts nothing, returns count 0, and raises no
exception: orphan rows and rows whose claim id text fails `int` (or whose
key is absent) are skipped with a warning, never treated as an error. -/
theorem c6_loadDetails_orphans_only (S : ClaimStore) (rows : List Row)
    (D : DetailStore)
    (hv : ∀ r ∈ rows, rowGet r "claim_id" ≠ .ok none)
    (h : ∀ r ∈ rows, ∀ i : Int, detailRowClaimId r = .ok i → i ∉ idsOf S) :
    loadDetails S rows D = ⟨D, 0, none⟩ := by
  have key : ∀ r ∈ rows, (∀ d : DetailRow, mapDetailRow S r ≠ .ok d) ∧
      mapDetailRow S r ≠ .err .invalidOperation ∧
      mapDetailRow S r ≠ .err .typeError := by
    intro r hr
    cases hg : rowGet r "claim_id" with
    | error e =>
        rcases rowGet_error_eq hg with rfl
        have hd := mapDetailRow_of_cid_err (detailRowClaimId_of_get_err hg) S
        rw [hd]
        refine ⟨fun d hcon => ?_, fun hcon => ?_, fun hcon => ?_⟩ <;> simp at hcon
    | ok v =>
        cases v with
        | none => exact absurd hg (hv r hr)
        | some s =>
            have hcid : detailRowClaimId r = parseIntE s :=
              detailRowClaimId_of_get hg
            cases hp : parseInt s with
            | none =>
                have hval : detailRowClaimId r = .error .valueError := by
                  rw [hcid]
                  simp [parseIntE, hp]
                have hd := mapDetailRow_of_cid_err hval S
                rw [hd]
                refine ⟨fun d hcon => ?_, fun hcon => ?_, fun hcon => ?_⟩ <;>
                  simp at hcon
            | some i =>
                have hok : detailRowClaimId r = .ok i := by
                  rw [hcid]
                  simp [parseIntE, hp]
                have hd := mapDetailRow_of_cid_orphan hok S (h r hr i hok)
                rw [hd]
                refine ⟨fun d hcon => ?_, fun hcon => ?_, fun hcon => ?_⟩ <;>
                  simp at hcon
  exact loadDetailsLoop_no_ok S rows (fun r hr => (key r hr).1)
    (fun r hr => (key r hr).2) D 0

/-- A details row whose claim id 2 matches no stored claim. -/
def orphanDetailRow : Row :=
  [("id", some "1"), ("claim_id", some "2"), ("denial_reason", some "N/A"),
   ("cpt_codes", some "99213")]

/-- C6 witness: a one-orphan-row details file against a store holding only
claim id 1. -/
theorem c6_loadDetails_orphans_only_witness :
    (∀ r ∈ [orphanDetailRow], rowGet r "claim_id" ≠ .ok none) ∧
    (∀ r ∈ [orphanDetailRow], ∀ i : Int,
      detailRowClaimId r = .ok i → i ∉ idsOf [c1Claim]) ∧
    loadDetails [c1Claim] [orphanDetailRow] [] = ⟨[], 0, none⟩ := by
  have hv : ∀ r ∈ [orphanDetailRow], rowGet r "claim_id" ≠ .ok none := by
    intro r hr hcon
    rcases List.mem_singleton.mp hr with rfl
    have h2 : rowGet orphanDetailRow "claim_id" = .ok (some "2") := by decide
    rw [h2] at hcon
    have h3 := Except.ok.inj hcon
    exact Option.noConfusion h3
  have hyp : ∀ r ∈ [orphanDetailRow], ∀ i : Int,
      detailRowClaimId r = .ok i → i ∉ idsOf [c1Claim] := by
    intro r hr i hcid
    rcases List.mem_singleton.mp hr with rfl
    have h2 : detailRowClaimId orphanDetailRow = Except.ok (2 : Int) := by decide
    rw [h2] at hcid
    rcases Except.ok.inj hcid with rfl
    decide
  exact ⟨hv, hyp,
    c6_loadDetails_orphans_only [c1Claim] [orphanDetailRow] [] hv hyp⟩

/-- C7: a row whose decimal text is malformed is NOT recovered locally: the
`Decimal` constructor raises `InvalidOperation`, which is not a `ValueError`
or `KeyError`, so it escapes the row loop's handler, aborts the import, and
the following well-formed row is never processed.  The other failure modes the
claim lists (malformed date, missing key) are indeed skipped locally with
processing continuing. -/
theorem c7_invalid_decimal_escapes :
    mapClaimRow badDecimalRow = .error .invalidOperation ∧
    loadClaims badThenGoodFile [] =
      ⟨[], 0, some PyError.invalidOperation⟩ ∧
    loadClaims [badDateRow, goodClaimRow] [] =
      ⟨[⟨11, "Bob Ray", ⟨25000, 2⟩, ⟨20000, 2⟩, .approved, "Acme",
          ⟨2024, 3, 5⟩, false⟩], 1, none⟩ ∧
    loadClaims [missingKeyRow, goodClaimRow] [] =
      ⟨[⟨11, "Bob Ray", ⟨25000, 2⟩, ⟨20000, 2⟩, .approved, "Acme",
          ⟨2024, 3, 5⟩, false⟩], 1, none⟩ := by decide

/-- A store with one claim fully billed and nothing paid: average paid is
zero, so the truthiness guard in the dashboard view fires. -/
def zeroPaidStore : ClaimStore :=
  [⟨1, "Ann Lee", ⟨10000, 2⟩, ⟨0, 2⟩, .approved, "Acme", ⟨2024, 1, 15⟩, false⟩]

/-- A store with one claim where both averages are nonzero. -/
def bothPaidStore : ClaimStore :=
  [⟨1, "Ann Lee", ⟨10000, 2⟩, ⟨8000, 2⟩, .approved, "Acme", ⟨2024, 1, 15⟩, false⟩]

/-- C3 counterexample: on a non-empty store where every paid amount is 0.00,
the dashboard's average underpayment is 0, not average billed minus average
paid (which is 100): the Python guard `if avg_billed and avg_paid` treats the
zero average as falsy and selects the zero branch. -/
theorem c3_counterexample :
    avg_underpayment zeroPaidStore = 0 ∧
    (zeroPaidStore.map (fun c => c.billed_amount.toRat)).sum /
        (zeroPaidStore.length : ℚ) -
      (zeroPaidStore.map (fun c => c.paid_amount.toRat)).sum /
        (zeroPaidStore.length : ℚ) = 100 ∧
    (0 : ℚ) ≠ 100 := by
  refine ⟨?_, ?_, by norm_num⟩ <;>
    norm_num [avg_underpayment, truthyQ, avgBilled, avgPaid, zeroPaidStore,
      Dec.toRat]

/-- C3 (amended): on every non-empty store whose average billed amount and
average paid amount are both nonzero, the dashboard's average underpayment
equals average billed minus average paid, computed as the difference of the
two averages; when either average is zero (or the store is empty) the view
returns 0 instead. -/
theorem c3_avg_underpayment_eq_diff (S : ClaimStore) (hne : S ≠ [])
    (hb : (S.map (fun c => c.billed_amount.toRat)).sum / (S.length : ℚ) ≠ 0)
    (hp : (S.map (fun c => c.paid_amount.toRat)).sum / (S.length : ℚ) ≠ 0) :
    avg_underpayment S =
      (S.map (fun c => c.billed_amount.toRat)).sum / (S.length : ℚ) -
      (S.map (fun c => c.paid_amount.toRat)).sum / (S.length : ℚ) := by
  have hS : S.isEmpty = false := by
    cases S with
    | nil => exact absurd rfl hne
    | cons a l => rfl
  simp [avg_underpayment, truthyQ, avgBilled, avgPaid, hS, hb, hp]

/-- C3 witness: the amended theorem applied to a concrete store with both
averages nonzero. -/
theorem c3_avg_underpayment_eq_diff_witness :
    bothPaidStore ≠ [] ∧
    (bothPaidStore.map (fun c => c.billed_amount.toRat)).sum /
        (bothPaidStore.length : ℚ) ≠ 0 ∧
    (bothPaidStore.map (fun c => c.paid_amount.toRat)).sum /
        (bothPaidStore.length : ℚ) ≠ 0 ∧
    avg_underpayment bothPaidStore =
      (bothPaidStore.map (fun c => c.billed_amount.toRat)).sum /
        (bothPaidStore.length : ℚ) -
      (bothPaidStore.map (fun c => c.paid_amount.toRat)).sum /
        (bothPaidStore.length : ℚ) := by
  have hb : (bothPaidStore.map (fun c => c.billed_amount.toRat)).sum /
      (bothPaidStore.length : ℚ) ≠ 0 := by
    norm_num [bothPaidStore, Dec.toRat]
  have hp : (bothPaidStore.map (fun c => c.paid_amount.toRat)).sum /
      (bothPaidStore.length : ℚ) ≠ 0 := by
    norm_num [bothPaidStore, Dec.toRat]
  exact ⟨by simp [bothPaidStore], hb, hp,
    c3_avg_underpayment_eq_diff bothPaidStore (by simp [bothPaidStore]) hb hp⟩

/-- C4 counterexample: the status breakdown has five entries, one per
`STATUS_CHOICES` value — there is no sixth category. -/
theorem c4_counterexample :
    (status_counts []).length = 5 ∧ ¬ (status_counts []).length = 6 := by decide

/-- C4 (amended): for every store, the status breakdown contains one entry per
status enum value — all five categories present, keyed by display name, even
when no claim has that status — and each entry equals the number of stored
claims with that status. -/
theorem c4_status_counts_complete (S : ClaimStore) :
    (status_counts S).length = 5 ∧
    ∀ st : Status, (status_counts S).lookup st.display =
      some ((S.filter (fun c => c.status = st)).length) := by
  refine ⟨rfl, ?_⟩
  intro st
  cases st <;> rfl

/-- C5: the status mapping applied by the claims import is total and maps each
exchange label to its documented enum value; every other string maps to
pending. -/
theorem c5_mapStatus_spec :
    mapStatus "Paid" = Status.approved ∧
    mapStatus "Denied" = Status.denied ∧
    mapStatus "Under Review" = Status.review ∧
    mapStatus "Processing" = Status.processing ∧
    mapStatus "Pending" = Status.pending ∧
    ∀ raw : String,
      raw ∉ ["Paid", "Denied", "Under Review", "Processing", "Pending"] →
      mapStatus raw = Status.pending := by
  refine ⟨rfl, rfl, rfl, rfl, rfl, ?_⟩
  intro raw h
  simp only [List.mem_cons, List.not_mem_nil, or_false, not_or] at h
  obtain ⟨h1, h2, h3, h4, h5⟩ := h
  have e1 : (raw == "Paid") = false := beq_eq_false_iff_ne.mpr h1
  have e2 : (raw == "Denied") = false := beq_eq_false_iff_ne.mpr h2
  have e3 : (raw == "Under Review") = false := beq_eq_false_iff_ne.mpr h3
  have e4 : (raw == "Processing") = false := beq_eq_false_iff_ne.mpr h4
  have e5 : (raw == "Pending") = false := beq_eq_false_iff_ne.mpr h5
  simp [mapStatus, status_mapping, List.lookup, e1, e2, e3, e4, e5]

/-- C5 witness: an unrecognised label (here an internal token) defaults to
pending. -/
theorem c5_mapStatus_spec_witness :
    "approved" ∉ ["Paid", "Denied", "Under Review", "Processing", "Pending"] ∧
    mapStatus "approved" = Status.pending :=
  ⟨by decide, c5_mapStatus_spec.2.2.2.2.2 "approved" (by decide)⟩

/-- C8: on the empty store the dashboard computation returns zero for every
scalar (claim count, flagged count, billed/paid/underpayment totals and
averages), zero for every status count, and empty top-insurer and monthly
lists. -/
theorem c8_dashboard_empty_store :
    total_claims [] = 0 ∧ flagged_claims [] = 0 ∧
    total_billed [] = 0 ∧ total_paid [] = 0 ∧ total_underpayment [] = 0 ∧
    ctx_avg_billed [] = 0 ∧ ctx_avg_paid [] = 0 ∧ avg_underpayment [] = 0 ∧
    (∀ p ∈ status_counts [], p.2 = 0) ∧
    top_insurers [] = [] ∧
    (∀ createdMonth : Claim → String, monthly_stats createdMonth [] = []) := by
  refine ⟨rfl, rfl, rfl, rfl, ?_, rfl, rfl, rfl, ?_, rfl, fun _ => rfl⟩
  · norm_num [total_underpayment, total_billed, total_paid, sumBilled, sumPaid,
      pyOrZero]
  · decide

/-- C9: a first line that does not split into the exact expected header
sequence for its file makes the validator return a header-mismatch error
carrying expected and actual (so a non-empty list), for the claims file and
for the details file alike; and whenever the validator's list is non-empty the
upload handler reports it and returns with the stores untouched — the loader
is never invoked. -/
theorem c9_validator_blocks_loader :
    (∀ (hdr : String) (rest df : List String),
        splitPipe hdr ≠ expected_claims_headers →
        ValidationError.headerMismatch "claims" expected_claims_headers
            (splitPipe hdr)
          ∈ validate_csv_files ((hdr :: rest).map splitPipe) (df.map splitPipe) ∧
        validate_csv_files ((hdr :: rest).map splitPipe) (df.map splitPipe) ≠ []) ∧
    (∀ (cf : List String) (hdr : String) (rest : List String),
        splitPipe hdr ≠ expected_details_headers →
        ValidationError.headerMismatch "details" expected_details_headers
            (splitPipe hdr)
          ∈ validate_csv_files (cf.map splitPipe) ((hdr :: rest).map splitPipe) ∧
        validate_csv_files (cf.map splitPipe) ((hdr :: rest).map splitPipe) ≠ []) ∧
    (∀ (mode : String) (cl dl : List String) (st : Stores),
        validate_csv_files (cl.map splitPipe) (dl.map splitPipe) ≠ [] →
        handle_csv_upload mode cl dl st =
          (.validationFailed
            (validate_csv_files (cl.map splitPipe) (dl.map splitPipe)), st)) := by
  refine ⟨?_, ?_, ?_⟩
  · intro hdr rest df h
    constructor
    · simp [validate_csv_files, validateFile, h]
    · simp [validate_csv_files, validateFile, h]
  · intro cf hdr rest h
    constructor
    · simp [validate_csv_files, validateFile, h]
    · intro hcon
      rcases List.append_eq_nil.mp hcon with ⟨_, h2⟩
      simp [validateFile, h] at h2
  · intro mode cl dl st h
    simp only [handle_csv_upload, if_pos h]

/-- C9 witness: a claims file with swapped header columns is blocked and the
loader never runs. -/
theorem c9_validator_blocks_loader_witness :
    splitPipe "patient_name|id|billed_amount|paid_amount|status|insurer_name|discharge_date"
        ≠ expected_claims_headers ∧
    ValidationError.headerMismatch "claims" expected_claims_headers
        (splitPipe "patient_name|id|billed_amount|paid_amount|status|insurer_name|discharge_date")
      ∈ validate_csv_files
        (["patient_name|id|billed_amount|paid_amount|status|insurer_name|discharge_date"].map splitPipe)
        (["id|claim_id|denial_reason|cpt_codes"].map splitPipe) ∧
    handle_csv_upload "append"
        ["patient_name|id|billed_amount|paid_amount|status|insurer_name|discharge_date"]
        ["id|claim_id|denial_reason|cpt_codes"] ⟨[], []⟩ =
      (.validationFailed (validate_csv_files
        (["patient_name|id|billed_amount|paid_amount|status|insurer_name|discharge_date"].map splitPipe)
        (["id|claim_id|denial_reason|cpt_codes"].map splitPipe)), ⟨[], []⟩) :=
  ⟨by decide,
   (c9_validator_blocks_loader.1
      "patient_name|id|billed_amount|paid_amount|status|insurer_name|discharge_date"
      [] ["id|claim_id|denial_reason|cpt_codes"] (by decide)).1,
   c9_validator_blocks_loader.2.2 "append"
      ["patient_name|id|billed_amount|paid_amount|status|insurer_name|discharge_date"]
      ["id|claim_id|denial_reason|cpt_codes"] ⟨[], []⟩ (by decide)⟩

/-- C10: a stored detail whose denial reason is the empty string exports its
denial-reason field as the literal N/A, making it indistinguishable in the
exported file from a detail with a null reason — even though the importer
stores an empty-string reason unchanged, distinct from null. -/
theorem c10_empty_reason_exports_na (d : ClaimDetail)
    (h : d.denial_reason = some "") :
    renderDenial d.denial_reason = "N/A" ∧
    exportDetailLine d =
      exportDetailLine ⟨d.pk, d.claim_id, d.cpt_codes, none⟩ ∧
    mapDenialReason "" = some "" ∧ (some "" : Option String) ≠ none := by
  refine ⟨?_, ?_, rfl, by simp⟩
  · rw [h]; rfl
  · simp [exportDetailLine, h, renderDenial]

/-- C10 witness: the export-collision theorem applied to a concrete detail
with an empty-string denial reason. -/
theorem c10_empty_reason_exports_na_witness :
    (ClaimDetail.mk 1 1 "99213, 99214" (some "")).denial_reason = some "" ∧
    renderDenial (ClaimDetail.mk 1 1 "99213, 99214" (some "")).denial_reason =
      "N/A" ∧
    exportDetailLine (ClaimDetail.mk 1 1 "99213, 99214" (some "")) =
      exportDetailLine ⟨1, 1, "99213, 99214", none⟩ :=
  ⟨rfl, (c10_empty_reason_exports_na _ rfl).1,
    (c10_empty_reason_exports_na (ClaimDetail.mk 1 1 "99213, 99214" (some ""))
      rfl).2.1⟩

end Erisa
